import Mathlib

/-!
# Span model of `ddtrace/tracer/span.go`

A shallow embedding of the `span` type and of its mutating methods
(`SetTag`, `setTagError`, `setTagString`, `setTagNumeric`, `Finish`,
`finish`, `SetOperationName`, `Context`).

Conventions of the embedding:

* a Go map is a lookup function `String → Option V`; a `nil` map is `none`,
  and writing to a `nil` map panics;
* a Go pointer that may be `nil` is an `Option`;
* a call that panics returns `none`, a call that returns normally yields
  `some` of the span after the call;
* `int64` values are integers, subtraction wraps around at 64 bits;
* `float64` is an arbitrary carrier type `F`: the code only stores such
  values and converts them with `int(v)`;
* the span's mutex is not modelled (calls are sequential).
-/

namespace Tracer

/-! ## Go maps -/

/-- A non-nil Go map with string keys: the lookup function of the map. -/
abbrev GoMap (V : Type) := String → Option V

/-- The empty map, as allocated by a `map[string]V` literal. -/
def GoMap.empty {V : Type} : GoMap V := fun _ => none

/-- The map after the assignment `m[k] = v`. -/
def GoMap.set {V : Type} (m : GoMap V) (k : String) (v : V) : GoMap V :=
  fun k' => if k' = k then some v else m k'

/-! ## Machine integers -/

/-- The `int64` value represented by the integer `x` after wrap-around. -/
def wrapInt64 (x : Int) : Int := (x + 2 ^ 63) % 2 ^ 64 - 2 ^ 63

/-- The `int64` subtraction `a - b`. -/
def subInt64 (a b : Int) : Int := wrapInt64 (a - b)

/-! ## Package `ext` and the values passed to `SetTag` -/

/-- The tag-name constants of package `ext` which `span.go` refers to. The
package is not part of the sources, so the constants are kept as
parameters. -/
structure Ext where
  Error : String
  ErrorMsg : String
  ErrorType : String
  ErrorStack : String
  ServiceName : String
  ResourceName : String
  SpanType : String
  SamplingPriority : String

/-- The eight tag-name constants in one list. -/
def Ext.keys (e : Ext) : List String :=
  [e.Error, e.ErrorMsg, e.ErrorType, e.ErrorStack,
   e.ServiceName, e.ResourceName, e.SpanType, e.SamplingPriority]

/-- The constants of package `ext` are pairwise different strings. -/
def Ext.Distinct (e : Ext) : Prop := e.keys.Nodup

instance (e : Ext) : Decidable e.Distinct := by
  unfold Ext.Distinct; infer_instance

/-- The values the constants have in the Datadog tracing convention. -/
def Ext.datadog : Ext where
  Error := "error"
  ErrorMsg := "error.msg"
  ErrorType := "error.type"
  ErrorStack := "error.stack"
  ServiceName := "service.name"
  ResourceName := "resource.name"
  SpanType := "span.type"
  SamplingPriority := "sampling.priority"

/-- The key under which the sampling priority is kept in the metrics. -/
def samplingPriorityKey : String := "_sampling_priority_v1"

/-- A non-nil Go `error` value, as far as `setTagError` observes it: the
result of `v.Error()` and of `reflect.TypeOf(v).String()`. -/
structure GoError where
  Error : String
  typeName : String
  deriving DecidableEq, Repr

/-- A Go `interface{}` value, by the cases `SetTag` tells apart. -/
inductive Value (F : Type) where
  /-- The nil interface value. -/
  | nil : Value F
  /-- A value of type `bool`. -/
  | bool (v : Bool) : Value F
  /-- A value of type `string`. -/
  | str (v : String) : Value F
  /-- A value of a numeric kind; `v` is the value converted to `float64` and
  `display` is what `fmt.Sprint` prints for it. -/
  | num (v : F) (display : String) : Value F
  /-- A non-nil value implementing `error`. -/
  | err (v : GoError) : Value F
  /-- Any other value; `display` is what `fmt.Sprint` prints for it. -/
  | other (display : String) : Value F

/-- The string `fmt.Sprint(value)`; an `error` value is printed through its
`Error` method. -/
def Sprint {F : Type} : Value F → String
  | .nil => "<nil>"
  | .bool true => "true"
  | .bool false => "false"
  | .str v => v
  | .num _ display => display
  | .err v => v.Error
  | .other display => display

/-- Modelled from the spec: `toFloat64` is not part of the sources; the
spec says that a "value of a numeric kind sets the metrics mapping", so the
conversion succeeds exactly on the values of a numeric kind. -/
def toFloat64 {F : Type} : Value F → Option F
  | .num v _ => some v
  | _ => none

/-! ## Span context and span -/

/-- Modelled from the spec: the declaration of `spanContext` is not among the
sources at hand; the spec lists a trace identifier, a span identifier, the
sampling state (sampled boolean and numeric priority) and the baggage. -/
structure spanContext where
  traceID : Nat
  spanID : Nat
  sampled : Bool
  priority : Int
  baggage : GoMap String

/-- Modelled from the spec: `spanContext.setSamplingPriority` is not among the
sources at hand; the spec says that the reserved key "also updates the owning
context's priority". -/
def spanContext.setSamplingPriority (c : spanContext) (p : Int) : spanContext :=
  { c with priority := p }

/-- The `span` struct. `Meta` and `Metrics` are `none` for a nil map and
`context` is `none` for a nil pointer. -/
structure span (F : Type) where
  Name : String
  Service : String
  Resource : String
  Type_ : String
  Start : Int
  Duration : Int
  Meta : Option (GoMap String)
  Metrics : Option (GoMap F)
  SpanID : Nat
  TraceID : Nat
  ParentID : Nat
  Error : Int
  context : Option spanContext

/-- What the package-level environment supplies to the methods: the constants
of `ext` and the Go conversion `int(v)` from `float64`. -/
structure Env (F : Type) where
  ext : Ext
  toInt : F → Int

variable {F : Type}

/-- `Context` yields the span context of the span. -/
def span.Context (s : span F) : Option spanContext := s.context

/-- The read `s.Meta[k]` with its presence flag; a nil map has no entries. -/
def span.tag (s : span F) (k : String) : Option String :=
  match s.Meta with
  | none => none
  | some m => m k

/-- The read `s.Metrics[k]` with its presence flag. -/
def span.metric (s : span F) (k : String) : Option F :=
  match s.Metrics with
  | none => none
  | some m => m k

/-- The assignment `s.Meta[k] = v`; it panics on a nil map. -/
def span.setMeta (s : span F) (k v : String) : Option (span F) :=
  match s.Meta with
  | none => none
  | some m => some { s with Meta := some (m.set k v) }

/-- The assignment `s.Metrics[k] = v`; it panics on a nil map. -/
def span.setMetric (s : span F) (k : String) (v : F) : Option (span F) :=
  match s.Metrics with
  | none => none
  | some m => some { s with Metrics := some (m.set k v) }

/-- `setTagError` sets the error tag; `stack` is what `debug.Stack()` returns
during the call. -/
def span.setTagError (env : Env F) (stack : String) (s : span F) (value : Value F) :
    Option (span F) :=
  match value with
  | .bool v =>
    if !v then some { s with Error := 0 } else some { s with Error := 1 }
  | .err v => do
    let s1 : span F := { s with Error := 1 }
    let s2 ← s1.setMeta env.ext.ErrorMsg v.Error
    let s3 ← s2.setMeta env.ext.ErrorType v.typeName
    s3.setMeta env.ext.ErrorStack stack
  | .nil => some { s with Error := 0 }
  | _ => some { s with Error := 1 }

/-- `setTagString` sets a string tag. -/
def span.setTagString (env : Env F) (s : span F) (key v : String) : Option (span F) :=
  if key = env.ext.ServiceName then some { s with Service := v }
  else if key = env.ext.ResourceName then some { s with Resource := v }
  else if key = env.ext.SpanType then some { s with Type_ := v }
  else s.setMeta key v

/-- `setTagNumeric` sets a numeric tag (a metric). The call of
`setSamplingPriority` dereferences the context and panics on a nil one. -/
def span.setTagNumeric (env : Env F) (s : span F) (key : String) (v : F) :
    Option (span F) :=
  if key = env.ext.SamplingPriority then do
    let s1 ← s.setMetric samplingPriorityKey v
    match s1.context with
    | none => none
    | some c => some { s1 with context := some (c.setSamplingPriority (env.toInt v)) }
  else s.setMetric key v

/-- `SetTag` adds a key/value pair to the span. -/
def span.SetTag (env : Env F) (stack : String) (s : span F) (key : String)
    (value : Value F) : Option (span F) :=
  if key = env.ext.Error then s.setTagError env stack value
  else
    match value with
    | .str v => s.setTagString env key v
    | _ =>
      match toFloat64 value with
      | some v => s.setTagNumeric env key v
      | none => s.setMeta key (Sprint value)

/-- `SetOperationName` sets or changes the operation name. -/
def span.SetOperationName (s : span F) (operationName : String) : span F :=
  { s with Name := operationName }

/-- The unexported `finish`: records the duration unless one is recorded, then
reads `s.context.sampled`, which panics on a nil context; nothing further is
done on either branch. -/
def span.finish (s : span F) (finishTime : Int) : Option (span F) :=
  let s1 : span F :=
    if s.Duration = 0 then { s with Duration := subInt64 finishTime s.Start } else s
  match s1.context with
  | none => none
  | some c => if !c.sampled then some s1 else some s1

/-! ## Finish options -/

/-- Modelled from the spec: `ddtrace.FinishConfig` is not among the sources at
hand; the spec names the entries "finish-time" and "error". `FinishTime` is
`none` for the zero `time.Time` (for which `IsZero` holds) and `some t` for a
time whose `UnixNano` is `t`; `Error` is `none` for a nil error. -/
structure FinishConfig where
  FinishTime : Option Int
  Error : Option GoError

/-- A `ddtrace.FinishOption`: a function updating the configuration. -/
abbrev FinishOption := FinishConfig → FinishConfig

/-- Modelled from the spec: the option constructor `tracer.WithError` is not
among the sources at hand; it sets the "explicit error object". -/
def WithError (err : Option GoError) : FinishOption :=
  fun cfg => { cfg with Error := err }

/-- Modelled from the spec: the option constructor `tracer.FinishTime` is not
among the sources at hand; it sets the "explicit finish time", here given in
nanoseconds since the epoch. -/
def FinishTime (t : Int) : FinishOption :=
  fun cfg => { cfg with FinishTime := some t }

/-- The configuration `Finish` builds: the options applied in order to the
zero value. -/
def finishConfig (opts : List FinishOption) : FinishConfig :=
  opts.foldl (fun cfg fn => fn cfg) { FinishTime := none, Error := none }

/-- `Finish` closes the span; `now` is what `now()` returns during the call and
`stack` what `debug.Stack()` returns. -/
def span.Finish (env : Env F) (stack : String) (now : Int) (s : span F)
    (opts : List FinishOption) : Option (span F) :=
  let cfg := finishConfig opts
  let t : Int :=
    match cfg.FinishTime with
    | none => now
    | some ft => ft
  match cfg.Error with
  | some e => do
    let s1 ← s.SetTag env stack env.ext.Error (.err e)
    s1.finish t
  | none => s.finish t

/-! ## Concrete spans used to evaluate the model -/

/-- The environment with the Datadog tag names and integer-valued metrics. -/
def demoEnv : Env Int := { ext := Ext.datadog, toInt := id }

/-- A context as `StartSpan` attaches it; `sampled` is left open. -/
def demoContext (sampled : Bool) : spanContext :=
  { traceID := 7, spanID := 7, sampled := sampled, priority := 0, baggage := GoMap.empty }

/-- A root span started at time 100 with empty maps, not yet finished. -/
def demoSpan (sampled : Bool) : span Int :=
  { Name := "web.request", Service := "api", Resource := "/users", Type_ := "web",
    Start := 100, Duration := 0, Meta := some GoMap.empty, Metrics := some GoMap.empty,
    SpanID := 7, TraceID := 7, ParentID := 0, Error := 0,
    context := some (demoContext sampled) }

/-! ## Auxiliary facts -/

/-- Wrap-around leaves a value within the `int64` range unchanged. -/
theorem wrapInt64_of_range (x : Int) (h1 : -(2 ^ 63) ≤ x) (h2 : x < 2 ^ 63) :
    wrapInt64 x = x := by
  unfold wrapInt64
  rw [Int.emod_eq_of_lt (by omega) (by omega)]
  omega

/-- The configuration built from a finish-time option alone. -/
theorem finishConfig_finishTime (t : Int) :
    finishConfig [FinishTime t] = { FinishTime := some t, Error := none } := rfl

/-- The configuration built from no options. -/
theorem finishConfig_nil : finishConfig [] = { FinishTime := none, Error := none } := rfl

/-- The configuration built from an error option alone. -/
theorem finishConfig_withError (err : Option GoError) :
    finishConfig [WithError err] = { FinishTime := none, Error := err } := rfl

/-- The configuration built from an error option and a finish-time option. -/
theorem finishConfig_withError_finishTime (err : Option GoError) (t : Int) :
    finishConfig [WithError err, FinishTime t] = { FinishTime := some t, Error := err } := rfl

/-- What `finish` returns on a span with a context. -/
theorem finish_eq (s : span F) (c : spanContext) (t : Int) (hc : s.context = some c) :
    s.finish t =
      some (if s.Duration = 0 then { s with Duration := subInt64 t s.Start } else s) := by
  unfold span.finish
  by_cases hd : s.Duration = 0 <;> simp [hd, hc]

/-- The duration of a span after the guarded assignment in `finish`. -/
theorem ite_duration (s : span F) (d : Int) :
    (if s.Duration = 0 then { s with Duration := d } else s).Duration =
      if s.Duration = 0 then d else s.Duration := by
  by_cases h : s.Duration = 0 <;> simp [h]

/-- What `Finish` with an explicit finish time returns on a span with a
context. -/
theorem Finish_finishTime_eq (env : Env F) (stack : String) (now : Int) (s : span F)
    (c : spanContext) (t : Int) (hc : s.context = some c) :
    s.Finish env stack now [FinishTime t] =
      some (if s.Duration = 0 then { s with Duration := subInt64 t s.Start } else s) := by
  simp [span.Finish, finishConfig_finishTime, finish_eq s c t hc]

/-- The duration after two calls of `Finish` with explicit times: the second
call keeps the first duration only when that duration is not zero. -/
theorem Finish_twice_duration (env : Env F) (stack : String) (now : Int) (s : span F)
    (c : spanContext) (t1 t2 : Int) (hc : s.context = some c) :
    ∃ s1 s2, s.Finish env stack now [FinishTime t1] = some s1 ∧
      s1.Finish env stack now [FinishTime t2] = some s2 ∧
      s2.Duration = if s1.Duration = 0 then subInt64 t2 s.Start else s1.Duration := by
  have hc1 : (if s.Duration = 0 then { s with Duration := subInt64 t1 s.Start } else s).context
      = some c := by
    split <;> simp [hc]
  have hs1 : (if s.Duration = 0 then { s with Duration := subInt64 t1 s.Start } else s).Start
      = s.Start := by
    split <;> rfl
  refine ⟨_, _, Finish_finishTime_eq env stack now s c t1 hc,
    Finish_finishTime_eq env stack now _ c t2 hc1, ?_⟩
  rw [ite_duration, hs1]

/-- The constants of `ext` compared with each other, for a `simp` set. -/
theorem Ext.Distinct.facts {e : Ext} (hd : e.Distinct) :
    (e.ErrorMsg ≠ e.ErrorType ∧ e.ErrorMsg ≠ e.ErrorStack ∧ e.ErrorType ≠ e.ErrorStack) ∧
    (e.ServiceName ≠ e.Error ∧ e.ResourceName ≠ e.Error ∧ e.SpanType ≠ e.Error ∧
      e.SamplingPriority ≠ e.Error) ∧
    (e.ResourceName ≠ e.ServiceName ∧ e.SpanType ≠ e.ServiceName ∧
      e.SpanType ≠ e.ResourceName) := by
  simp only [Ext.Distinct, Ext.keys, List.nodup_cons, List.mem_cons, List.mem_singleton,
    not_or, List.not_mem_nil, not_false_eq_true, List.nodup_nil, and_true] at hd
  obtain ⟨⟨h12, h13, h14, h15, h16, h17, h18⟩, ⟨h23, h24, -⟩, ⟨h34, -⟩, -,
    ⟨h56, h57, -⟩, ⟨h67, -⟩, -⟩ := hd
  exact ⟨⟨h23, h24, h34⟩, ⟨Ne.symm h15, Ne.symm h16, Ne.symm h17, Ne.symm h18⟩,
    ⟨Ne.symm h56, Ne.symm h57, Ne.symm h67⟩⟩

/-- The Datadog tag names are pairwise different. -/
theorem Ext.datadog_distinct : Ext.datadog.Distinct := by decide

/-- `SetTag` neither reads nor writes the duration: it commutes with an
assignment to `Duration`. -/
theorem SetTag_duration_comm (env : Env F) (stack : String) (s : span F) (key : String)
    (value : Value F) (d : Int) :
    ({ s with Duration := d } : span F).SetTag env stack key value =
      (s.SetTag env stack key value).map (fun r => { r with Duration := d }) := by
  cases hM : s.Meta <;> cases hX : s.Metrics <;> cases hC : s.context <;> cases value <;>
    simp only [span.SetTag, span.setTagError, span.setTagString, span.setTagNumeric,
      span.setMeta, span.setMetric, toFloat64, hM, hX, hC] <;>
    split_ifs <;> simp [hM, hX, hC]

/-- What `SetTag` returns for an error value under the error key when the tag
map is allocated. -/
theorem SetTag_err_eq (env : Env F) (stack : String) (s : span F) (m : GoMap String)
    (e : GoError) (hm : s.Meta = some m) :
    s.SetTag env stack env.ext.Error (.err e) =
      some { s with Error := 1, Meta := some (((m.set env.ext.ErrorMsg e.Error).set
        env.ext.ErrorType e.typeName).set env.ext.ErrorStack stack) } := by
  simp [span.SetTag, span.setTagError, span.setMeta, hm]

/-- With an error in the configuration, `Finish` is `SetTag` under the error
key followed by `finish`. -/
theorem Finish_withError_eq (env : Env F) (stack : String) (now : Int) (s : span F)
    (e : GoError) (t : Int) :
    s.Finish env stack now [WithError (some e), FinishTime t] =
      (s.SetTag env stack env.ext.Error (.err e)).bind (fun s1 => s1.finish t) := by
  simp [span.Finish, finishConfig_withError_finishTime]

/-- With only a finish time in the configuration, `Finish` is `finish`. -/
theorem Finish_finishTime_finish (env : Env F) (stack : String) (now : Int) (s : span F)
    (t : Int) : s.Finish env stack now [FinishTime t] = s.finish t := by
  simp [span.Finish, finishConfig_finishTime]

/-! ## Claims -/

/-- C1: evaluated on a span started at time 100 and finished first at time 100
and then at time 150, the first `Finish` leaves the duration 0 and the second
`Finish` changes it to 50, so the first call does not win when the first
finish time equals the start time. -/
theorem C1_finish_twice_zero_duration :
    ((demoSpan true).Finish demoEnv "" 0 [FinishTime 100]).map (fun s => s.Duration)
        = some 0 ∧
      (((demoSpan true).Finish demoEnv "" 0 [FinishTime 100]).bind
          (fun s1 => s1.Finish demoEnv "" 0 [FinishTime 150])).map (fun s => s.Duration)
        = some 50 := by
  constructor <;> decide

/-- C2: on a span with a context whose duration is still 0, `Finish` with the
explicit finish time `t` returns with the duration set to the `int64`
difference of `t` and the start time, whatever the sampled flag of the context
is; without overflow this is the integer difference. -/
theorem C2_finish_records_duration (env : Env F) (stack : String) (now : Int)
    (s : span F) (c : spanContext) (t : Int)
    (hc : s.context = some c) (hd : s.Duration = 0) :
    ∃ s2, s.Finish env stack now [FinishTime t] = some s2 ∧
      s2.Duration = subInt64 t s.Start ∧
      (-(2 ^ 63) ≤ t - s.Start → t - s.Start < 2 ^ 63 → s2.Duration = t - s.Start) := by
  refine ⟨{ s with Duration := subInt64 t s.Start }, ?_, rfl, ?_⟩
  · simp [span.Finish, finishConfig_finishTime, finish_eq s c t hc, hd]
  · intro h1 h2
    exact wrapInt64_of_range _ h1 h2

/-- C2 at an unsampled span started at time 100 and finished at time 150. -/
theorem C2_witness :
    (demoSpan false).context = some (demoContext false) ∧ (demoSpan false).Duration = 0 ∧
      ∃ s2, (demoSpan false).Finish demoEnv "" 0 [FinishTime 150] = some s2 ∧
        s2.Duration = subInt64 150 (demoSpan false).Start ∧
        (-(2 ^ 63) ≤ 150 - (demoSpan false).Start → 150 - (demoSpan false).Start < 2 ^ 63 →
          s2.Duration = 150 - (demoSpan false).Start) :=
  ⟨rfl, rfl, C2_finish_records_duration demoEnv "" 0 (demoSpan false) (demoContext false) 150
    rfl rfl⟩

/-- C3 (counterexample): on the span obtained by finishing at time 150, a
`SetTag` with a string value under the key "k" adds the tag, although the span
had no such tag right after `Finish`. -/
theorem C3_counterexample :
    ((demoSpan true).Finish demoEnv "" 0 [FinishTime 150]).bind
        (fun s1 => (s1.SetTag demoEnv "" "k" (.str "v")).map
          (fun s2 => (s1.Duration, s1.tag "k", s2.tag "k")))
      = some (50, none, some "v") := by
  decide

/-- C3 (amended): on a span returned by `Finish`, with both maps allocated and
a context attached, `SetTag` returns normally and leaves the duration, the
start time, the name and the three identifiers unchanged; it treats the span
as it treats the same span with the duration reset to 0, so the remaining
fields are updated as on an unfinished span. -/
theorem C3_setTag_after_finish (env : Env F) (stack0 stack : String) (now : Int)
    (s0 s : span F) (opts : List FinishOption) (m : GoMap String) (mx : GoMap F)
    (c : spanContext) (key : String) (value : Value F)
    (_hf : s0.Finish env stack0 now opts = some s)
    (hm : s.Meta = some m) (hx : s.Metrics = some mx) (hc : s.context = some c) :
    ∃ s2, s.SetTag env stack key value = some s2 ∧
      s2.Duration = s.Duration ∧ s2.Start = s.Start ∧ s2.Name = s.Name ∧
      s2.SpanID = s.SpanID ∧ s2.TraceID = s.TraceID ∧ s2.ParentID = s.ParentID ∧
      ({ s with Duration := 0 } : span F).SetTag env stack key value
        = some { s2 with Duration := 0 } := by
  have key_fact : ∃ s2, s.SetTag env stack key value = some s2 ∧
      s2.Duration = s.Duration ∧ s2.Start = s.Start ∧ s2.Name = s.Name ∧
      s2.SpanID = s.SpanID ∧ s2.TraceID = s.TraceID ∧ s2.ParentID = s.ParentID := by
    cases value <;>
      simp only [span.SetTag, span.setTagError, span.setTagString, span.setTagNumeric,
        span.setMeta, span.setMetric, toFloat64, hm, hx, hc] <;>
      split_ifs <;> simp [hm, hx, hc]
  obtain ⟨s2, h, hrest⟩ := key_fact
  refine ⟨s2, h, ?_⟩
  rw [SetTag_duration_comm, h]
  simpa using hrest

/-- C3 (amended) at the span finished with duration 50, tagged under "k". -/
theorem C3_witness :
    ∃ s2, ({ demoSpan true with Duration := 50 } : span Int).SetTag demoEnv "" "k" (.str "v")
        = some s2 ∧
      s2.Duration = 50 ∧ s2.Start = 100 ∧ s2.Name = "web.request" ∧
      s2.SpanID = 7 ∧ s2.TraceID = 7 ∧ s2.ParentID = 0 ∧
      ({ ({ demoSpan true with Duration := 50 } : span Int) with Duration := 0 } :
          span Int).SetTag demoEnv "" "k" (.str "v")
        = some { s2 with Duration := 0 } :=
  C3_setTag_after_finish demoEnv "" "" 0 (demoSpan true)
    ({ demoSpan true with Duration := 50 } : span Int) [FinishTime 150]
    GoMap.empty GoMap.empty (demoContext true) "k" (.str "v") rfl rfl rfl rfl

/-- C4 (counterexample): for an error whose `Error` method returns the empty
string, the tag under the error-message key is present after
`SetTag(ext.Error, e)` and is the empty string. -/
theorem C4_counterexample :
    ((demoSpan true).SetTag demoEnv "stack" demoEnv.ext.Error
        (.err { Error := "", typeName := "*errors.errorString" })).map
        (fun s => (s.Error, s.tag demoEnv.ext.ErrorMsg, s.tag demoEnv.ext.ErrorType))
      = some (1, some "", some "*errors.errorString") := by
  decide

/-- C4 (amended): on a span with an allocated tag map, `SetTag(ext.Error, e)`
with a non-nil error `e` returns with the error flag 1 and with the
error-message, error-type and error-stack tags present: the message tag is
`e.Error()`, the type tag is the name of the dynamic type of `e`, the stack tag
is the captured stack; the message tag is the empty string exactly when
`e.Error()` is, and the type tag is the empty string exactly when the type name
is (which no Go type name is). -/
theorem C4_setTag_error_value (env : Env F) (stack : String) (s : span F)
    (m : GoMap String) (e : GoError) (hd : env.ext.Distinct) (hm : s.Meta = some m) :
    ∃ s2, s.SetTag env stack env.ext.Error (.err e) = some s2 ∧
      s2.Error = 1 ∧
      s2.tag env.ext.ErrorMsg = some e.Error ∧
      s2.tag env.ext.ErrorType = some e.typeName ∧
      s2.tag env.ext.ErrorStack = some stack ∧
      (s2.tag env.ext.ErrorMsg = some "" ↔ e.Error = "") ∧
      (s2.tag env.ext.ErrorType = some "" ↔ e.typeName = "") := by
  obtain ⟨⟨h1, h2, h3⟩, -, -⟩ := hd.facts
  refine ⟨{ s with Error := 1, Meta := some (((m.set env.ext.ErrorMsg e.Error).set
    env.ext.ErrorType e.typeName).set env.ext.ErrorStack stack) }, ?_, rfl, ?_, ?_, ?_, ?_, ?_⟩
  · simp [span.SetTag, span.setTagError, span.setMeta, hm]
  · simp [span.tag, GoMap.set, h1, h2]
  · simp [span.tag, GoMap.set, h3]
  · simp [span.tag, GoMap.set]
  · simp [span.tag, GoMap.set, h1, h2]
  · simp [span.tag, GoMap.set, h3]

/-- C4 (amended) at an error with the message "boom". -/
theorem C4_witness :
    ∃ s2, (demoSpan true).SetTag demoEnv "stack" demoEnv.ext.Error
        (.err { Error := "boom", typeName := "*errors.errorString" }) = some s2 ∧
      s2.Error = 1 ∧
      s2.tag demoEnv.ext.ErrorMsg = some "boom" ∧
      s2.tag demoEnv.ext.ErrorType = some "*errors.errorString" ∧
      s2.tag demoEnv.ext.ErrorStack = some "stack" ∧
      (s2.tag demoEnv.ext.ErrorMsg = some "" ↔ "boom" = "") ∧
      (s2.tag demoEnv.ext.ErrorType = some "" ↔ "*errors.errorString" = "") :=
  C4_setTag_error_value demoEnv "stack" (demoSpan true) GoMap.empty
    { Error := "boom", typeName := "*errors.errorString" } (by decide) rfl

/-- C5: for every span, `SetTag(ext.Error, false)` returns with the error flag
0, whatever the flag was, and with the tag map, the metrics map and every other
field as before. -/
theorem C5_setTag_error_false (env : Env F) (stack : String) (s : span F) :
    ∃ s2, s.SetTag env stack env.ext.Error (.bool false) = some s2 ∧
      s2.Error = 0 ∧ s2.Meta = s.Meta ∧ s2.Metrics = s.Metrics ∧
      s2 = { s with Error := 0 } :=
  ⟨{ s with Error := 0 }, by simp [span.SetTag, span.setTagError], rfl, rfl, rfl, rfl⟩

/-- C6 (counterexample): under the error key, which is none of the three
reserved keys, a string value does not become a tag; the error flag changes
from 0 to 1 instead. -/
theorem C6_counterexample :
    ((demoSpan true).SetTag demoEnv "" demoEnv.ext.Error (.str "x")).map
        (fun s => (s.Error, s.tag demoEnv.ext.Error)) = some (1, none) ∧
      (demoSpan true).Error = 0 ∧
      demoEnv.ext.Error ≠ demoEnv.ext.ServiceName ∧
      demoEnv.ext.Error ≠ demoEnv.ext.ResourceName ∧
      demoEnv.ext.Error ≠ demoEnv.ext.SpanType := by
  decide

/-- C6 (amended): for a string value `v`, `SetTag(key, v)` on a span with an
allocated tag map returns as follows. Under `ext.ServiceName`,
`ext.ResourceName` or `ext.SpanType` only the field `Service`, `Resource` or
`Type` changes, to `v`. Under the error key only the error flag changes, to 1.
Under every other key the tag map maps `key` to `v` afterwards, the other tags
are as before, and `Service`, `Resource`, `Type`, the metrics and the error
flag are unchanged. -/
theorem C6_setTag_string (env : Env F) (stack : String) (s : span F) (m : GoMap String)
    (key v : String) (hd : env.ext.Distinct) (hm : s.Meta = some m) :
    (key = env.ext.ServiceName →
      s.SetTag env stack key (.str v) = some { s with Service := v }) ∧
    (key = env.ext.ResourceName →
      s.SetTag env stack key (.str v) = some { s with Resource := v }) ∧
    (key = env.ext.SpanType →
      s.SetTag env stack key (.str v) = some { s with Type_ := v }) ∧
    (key = env.ext.Error →
      s.SetTag env stack key (.str v) = some { s with Error := 1 }) ∧
    (key ≠ env.ext.Error → key ≠ env.ext.ServiceName → key ≠ env.ext.ResourceName →
      key ≠ env.ext.SpanType →
      ∃ s2, s.SetTag env stack key (.str v) = some s2 ∧
        s2.tag key = some v ∧ (∀ k, k ≠ key → s2.tag k = s.tag k) ∧
        s2.Service = s.Service ∧ s2.Resource = s.Resource ∧ s2.Type_ = s.Type_ ∧
        s2.Metrics = s.Metrics ∧ s2.Error = s.Error ∧
        s2 = { s with Meta := some (m.set key v) }) := by
  obtain ⟨-, ⟨e1, e2, e3, -⟩, ⟨r1, r2, r3⟩⟩ := hd.facts
  refine ⟨?_, ?_, ?_, ?_, ?_⟩
  · rintro rfl
    simp [span.SetTag, span.setTagString, e1]
  · rintro rfl
    simp [span.SetTag, span.setTagString, e2, r1]
  · rintro rfl
    simp [span.SetTag, span.setTagString, e3, r2, r3]
  · rintro rfl
    simp [span.SetTag, span.setTagError]
  · intro h0 h1 h2 h3
    refine ⟨{ s with Meta := some (m.set key v) }, ?_, ?_, ?_, rfl, rfl, rfl, rfl, rfl, rfl⟩
    · simp [span.SetTag, span.setTagString, span.setMeta, hm, h0, h1, h2, h3]
    · simp [span.tag, GoMap.set]
    · intro k hk
      simp [span.tag, GoMap.set, hm, hk]

/-- C6 (amended) at the key "k", which is not reserved. -/
theorem C6_witness :
    (demoEnv.ext.Error ≠ "k" ∧ "k" ≠ demoEnv.ext.ServiceName) ∧
    (("k" : String) = demoEnv.ext.ServiceName →
      (demoSpan true).SetTag demoEnv "" "k" (.str "v")
        = some { demoSpan true with Service := "v" }) ∧
    (("k" : String) = demoEnv.ext.ResourceName →
      (demoSpan true).SetTag demoEnv "" "k" (.str "v")
        = some { demoSpan true with Resource := "v" }) ∧
    (("k" : String) = demoEnv.ext.SpanType →
      (demoSpan true).SetTag demoEnv "" "k" (.str "v")
        = some { demoSpan true with Type_ := "v" }) ∧
    (("k" : String) = demoEnv.ext.Error →
      (demoSpan true).SetTag demoEnv "" "k" (.str "v")
        = some { demoSpan true with Error := 1 }) ∧
    (("k" : String) ≠ demoEnv.ext.Error → ("k" : String) ≠ demoEnv.ext.ServiceName →
      ("k" : String) ≠ demoEnv.ext.ResourceName → ("k" : String) ≠ demoEnv.ext.SpanType →
      ∃ s2, (demoSpan true).SetTag demoEnv "" "k" (.str "v") = some s2 ∧
        s2.tag "k" = some "v" ∧ (∀ k, k ≠ "k" → s2.tag k = (demoSpan true).tag k) ∧
        s2.Service = (demoSpan true).Service ∧ s2.Resource = (demoSpan true).Resource ∧
        s2.Type_ = (demoSpan true).Type_ ∧
        s2.Metrics = (demoSpan true).Metrics ∧ s2.Error = (demoSpan true).Error ∧
        s2 = { demoSpan true with Meta := some (GoMap.empty.set "k" "v") }) :=
  ⟨by decide, C6_setTag_string demoEnv "" (demoSpan true) GoMap.empty "k" "v" (by decide) rfl⟩

/-- C7: for a value of a numeric kind with `float64` value `v` and a key other
than the error key, `SetTag` on a span with an allocated metrics map and a
context returns with the tag map unchanged. Under `ext.SamplingPriority` the
metric `_sampling_priority_v1` is `v` afterwards and the priority of the
context is `int(v)`; under every other key the metric `key` is `v` afterwards
and the context is unchanged. -/
theorem C7_setTag_numeric (env : Env F) (stack : String) (s : span F) (mx : GoMap F)
    (c : spanContext) (key : String) (v : F) (display : String)
    (hk : key ≠ env.ext.Error) (hx : s.Metrics = some mx) (hc : s.context = some c) :
    ∃ s2, s.SetTag env stack key (.num v display) = some s2 ∧
      s2.Meta = s.Meta ∧
      (key = env.ext.SamplingPriority →
        s2.metric samplingPriorityKey = some v ∧
        (∀ k, k ≠ samplingPriorityKey → s2.metric k = s.metric k) ∧
        s2.context.map (fun x => x.priority) = some (env.toInt v) ∧
        s2 = { s with Metrics := some (mx.set samplingPriorityKey v),
                      context := some (c.setSamplingPriority (env.toInt v)) }) ∧
      (key ≠ env.ext.SamplingPriority →
        s2.metric key = some v ∧ (∀ k, k ≠ key → s2.metric k = s.metric k) ∧
        s2.context = s.context ∧
        s2 = { s with Metrics := some (mx.set key v) }) := by
  by_cases hp : key = env.ext.SamplingPriority
  · subst hp
    refine ⟨{ s with Metrics := some (mx.set samplingPriorityKey v),
                     context := some (c.setSamplingPriority (env.toInt v)) }, ?_, rfl, ?_, ?_⟩
    · simp [span.SetTag, span.setTagNumeric, span.setMetric, toFloat64, hk, hx, hc]
    · intro _
      refine ⟨?_, ?_, ?_, rfl⟩
      · simp [span.metric, GoMap.set]
      · intro k hk2
        simp [span.metric, GoMap.set, hx, hk2]
      · simp [spanContext.setSamplingPriority]
    · intro h
      exact absurd rfl h
  · refine ⟨{ s with Metrics := some (mx.set key v) }, ?_, rfl, ?_, ?_⟩
    · simp [span.SetTag, span.setTagNumeric, span.setMetric, toFloat64, hk, hp, hx]
    · intro h
      exact absurd h hp
    · intro _
      refine ⟨?_, ?_, rfl, rfl⟩
      · simp [span.metric, GoMap.set]
      · intro k hk2
        simp [span.metric, GoMap.set, hx, hk2]

/-- C7 at the sampling-priority key with the value 2. -/
theorem C7_witness :
    ∃ s2, (demoSpan true).SetTag demoEnv "" "sampling.priority" (.num 2 "2") = some s2 ∧
      s2.Meta = (demoSpan true).Meta ∧
      (("sampling.priority" : String) = demoEnv.ext.SamplingPriority →
        s2.metric samplingPriorityKey = some 2 ∧
        (∀ k, k ≠ samplingPriorityKey → s2.metric k = (demoSpan true).metric k) ∧
        s2.context.map (fun x => x.priority) = some (demoEnv.toInt 2) ∧
        s2 = { demoSpan true with
                Metrics := some (GoMap.empty.set samplingPriorityKey 2),
                context := some ((demoContext true).setSamplingPriority (demoEnv.toInt 2)) }) ∧
      (("sampling.priority" : String) ≠ demoEnv.ext.SamplingPriority →
        s2.metric "sampling.priority" = some 2 ∧
        (∀ k, k ≠ "sampling.priority" → s2.metric k = (demoSpan true).metric k) ∧
        s2.context = (demoSpan true).context ∧
        s2 = { demoSpan true with Metrics := some (GoMap.empty.set "sampling.priority" 2) }) :=
  C7_setTag_numeric demoEnv "" (demoSpan true) GoMap.empty (demoContext true)
    "sampling.priority" 2 "2" (by decide) rfl rfl

/-- C8: on a span with an allocated tag map and a context, finishing with a
non-nil error `e` and the explicit finish time `t` returns, and so does
`SetTag(ext.Error, e)` followed by `Finish` with the finish time `t`; the two
resulting spans have the same error flag (1), the same duration, the same
error-message and error-type tags, the same tag under every key other than
the stack-trace key and the same remaining fields, and they are equal when
both calls capture the same stack trace. -/
theorem C8_finish_withError (env : Env F) (stack1 stack2 stack3 : String) (now1 now2 : Int)
    (s : span F) (m : GoMap String) (c : spanContext) (e : GoError) (t : Int)
    (hd : env.ext.Distinct) (hm : s.Meta = some m) (hc : s.context = some c) :
    ∃ a b, s.Finish env stack1 now1 [WithError (some e), FinishTime t] = some a ∧
      (s.SetTag env stack2 env.ext.Error (.err e)).bind
          (fun s1 => s1.Finish env stack3 now2 [FinishTime t]) = some b ∧
      a.Error = b.Error ∧ a.Error = 1 ∧ a.Duration = b.Duration ∧
      a.tag env.ext.ErrorMsg = b.tag env.ext.ErrorMsg ∧
      a.tag env.ext.ErrorMsg = some e.Error ∧
      a.tag env.ext.ErrorType = b.tag env.ext.ErrorType ∧
      a.tag env.ext.ErrorType = some e.typeName ∧
      (∀ k, k ≠ env.ext.ErrorStack → a.tag k = b.tag k) ∧
      a.Name = b.Name ∧ a.Service = b.Service ∧ a.Resource = b.Resource ∧
      a.Type_ = b.Type_ ∧ a.Start = b.Start ∧ a.Metrics = b.Metrics ∧
      a.SpanID = b.SpanID ∧ a.TraceID = b.TraceID ∧ a.ParentID = b.ParentID ∧
      a.context = b.context ∧
      (stack1 = stack2 → a = b) := by
  obtain ⟨⟨h1, h2, h3⟩, -, -⟩ := hd.facts
  by_cases hdur : s.Duration = 0
  · refine ⟨{ s with
        Error := 1,
        Meta := some (((m.set env.ext.ErrorMsg e.Error).set env.ext.ErrorType
          e.typeName).set env.ext.ErrorStack stack1),
        Duration := subInt64 t s.Start },
      { s with
        Error := 1,
        Meta := some (((m.set env.ext.ErrorMsg e.Error).set env.ext.ErrorType
          e.typeName).set env.ext.ErrorStack stack2),
        Duration := subInt64 t s.Start }, ?_, ?_, rfl, rfl, rfl, ?_, ?_, ?_, ?_, ?_,
      rfl, rfl, rfl, rfl, rfl, rfl, rfl, rfl, rfl, rfl, ?_⟩
    · rw [Finish_withError_eq, SetTag_err_eq env stack1 s m e hm]
      simp [span.finish, hc, hdur]
    · rw [SetTag_err_eq env stack2 s m e hm]
      simp [Finish_finishTime_finish, span.finish, hc, hdur]
    · simp [span.tag, GoMap.set, h1, h2]
    · simp [span.tag, GoMap.set, h1, h2]
    · simp [span.tag, GoMap.set, h3]
    · simp [span.tag, GoMap.set, h3]
    · intro k hk
      simp [span.tag, GoMap.set, hk]
    · rintro rfl
      rfl
  · refine ⟨{ s with
        Error := 1,
        Meta := some (((m.set env.ext.ErrorMsg e.Error).set env.ext.ErrorType
          e.typeName).set env.ext.ErrorStack stack1) },
      { s with
        Error := 1,
        Meta := some (((m.set env.ext.ErrorMsg e.Error).set env.ext.ErrorType
          e.typeName).set env.ext.ErrorStack stack2) }, ?_, ?_, rfl, rfl, rfl, ?_, ?_, ?_, ?_, ?_,
      rfl, rfl, rfl, rfl, rfl, rfl, rfl, rfl, rfl, rfl, ?_⟩
    · rw [Finish_withError_eq, SetTag_err_eq env stack1 s m e hm]
      simp [span.finish, hc, hdur]
    · rw [SetTag_err_eq env stack2 s m e hm]
      simp [Finish_finishTime_finish, span.finish, hc, hdur]
    · simp [span.tag, GoMap.set, h1, h2]
    · simp [span.tag, GoMap.set, h1, h2]
    · simp [span.tag, GoMap.set, h3]
    · simp [span.tag, GoMap.set, h3]
    · intro k hk
      simp [span.tag, GoMap.set, hk]
    · rintro rfl
      rfl

/-- C8 at an error with the message "boom" and the finish time 150, with
different stack traces and clock readings in the calls. -/
theorem C8_witness :
    ∃ a b, (demoSpan true).Finish demoEnv "st1" 0
          [WithError (some { Error := "boom", typeName := "*errors.errorString" }),
           FinishTime 150] = some a ∧
      ((demoSpan true).SetTag demoEnv "st2" demoEnv.ext.Error
          (.err { Error := "boom", typeName := "*errors.errorString" })).bind
          (fun s1 => s1.Finish demoEnv "st3" 1 [FinishTime 150]) = some b ∧
      a.Error = b.Error ∧ a.Error = 1 ∧ a.Duration = b.Duration ∧
      a.tag demoEnv.ext.ErrorMsg = b.tag demoEnv.ext.ErrorMsg ∧
      a.tag demoEnv.ext.ErrorMsg = some "boom" ∧
      a.tag demoEnv.ext.ErrorType = b.tag demoEnv.ext.ErrorType ∧
      a.tag demoEnv.ext.ErrorType = some "*errors.errorString" ∧
      (∀ k, k ≠ demoEnv.ext.ErrorStack → a.tag k = b.tag k) ∧
      a.Name = b.Name ∧ a.Service = b.Service ∧ a.Resource = b.Resource ∧
      a.Type_ = b.Type_ ∧ a.Start = b.Start ∧ a.Metrics = b.Metrics ∧
      a.SpanID = b.SpanID ∧ a.TraceID = b.TraceID ∧ a.ParentID = b.ParentID ∧
      a.context = b.context ∧
      (("st1" : String) = "st2" → a = b) :=
  C8_finish_withError demoEnv "st1" "st2" "st3" 0 1 (demoSpan true) GoMap.empty
    (demoContext true) { Error := "boom", typeName := "*errors.errorString" } 150
    (by decide) rfl rfl

/-- C9: for a key other than the error key and a value that is neither a string
nor of a numeric kind, `SetTag` on a span with an allocated tag map returns
with the tag `key` equal to `fmt.Sprint(value)`, the other tags as before, and
the metrics map, `Service`, `Resource`, `Type` and the error flag unchanged. -/
theorem C9_setTag_other (env : Env F) (stack : String) (s : span F) (m : GoMap String)
    (key : String) (value : Value F)
    (hk : key ≠ env.ext.Error) (hs : ∀ v, value ≠ .str v) (hn : toFloat64 value = none)
    (hm : s.Meta = some m) :
    ∃ s2, s.SetTag env stack key value = some s2 ∧
      s2.tag key = some (Sprint value) ∧ (∀ k, k ≠ key → s2.tag k = s.tag k) ∧
      s2.Metrics = s.Metrics ∧ s2.Service = s.Service ∧ s2.Resource = s.Resource ∧
      s2.Type_ = s.Type_ ∧ s2.Error = s.Error ∧
      s2 = { s with Meta := some (m.set key (Sprint value)) } := by
  refine ⟨{ s with Meta := some (m.set key (Sprint value)) }, ?_, ?_, ?_,
    rfl, rfl, rfl, rfl, rfl, rfl⟩
  · cases value with
    | str v => exact absurd rfl (hs v)
    | num v d => simp [toFloat64] at hn
    | nil => simp [span.SetTag, span.setMeta, toFloat64, hk, hm]
    | bool b => simp [span.SetTag, span.setMeta, toFloat64, hk, hm]
    | err e => simp [span.SetTag, span.setMeta, toFloat64, hk, hm]
    | other d => simp [span.SetTag, span.setMeta, toFloat64, hk, hm]
  · simp [span.tag, GoMap.set]
  · intro k hk2
    simp [span.tag, GoMap.set, hm, hk2]

/-- C9 at the boolean value `true` under the key "cache.hit". -/
theorem C9_witness :
    ∃ s2, (demoSpan true).SetTag demoEnv "" "cache.hit" (.bool true) = some s2 ∧
      s2.tag "cache.hit" = some (Sprint (.bool true : Value Int)) ∧
      (∀ k, k ≠ "cache.hit" → s2.tag k = (demoSpan true).tag k) ∧
      s2.Metrics = (demoSpan true).Metrics ∧ s2.Service = (demoSpan true).Service ∧
      s2.Resource = (demoSpan true).Resource ∧
      s2.Type_ = (demoSpan true).Type_ ∧ s2.Error = (demoSpan true).Error ∧
      s2 = { demoSpan true with
              Meta := some (GoMap.empty.set "cache.hit" (Sprint (.bool true : Value Int))) } :=
  C9_setTag_other demoEnv "" (demoSpan true) GoMap.empty "cache.hit" (.bool true)
    (by decide) (by intro v h; cases h) rfl rfl

/-- C10: when the finish configuration holds no error, `Finish` on a span with
a context returns, whether or not the context is sampled, and every field other
than the duration is as before: name, service, resource, type, start time, tag
map, metrics map, the three identifiers, the error flag, and the context that
`Context` returns. -/
theorem C10_finish_frame (env : Env F) (stack : String) (now : Int) (s : span F)
    (c : spanContext) (opts : List FinishOption)
    (he : (finishConfig opts).Error = none) (hc : s.context = some c) :
    ∃ s2, s.Finish env stack now opts = some s2 ∧
      s2.Name = s.Name ∧ s2.Service = s.Service ∧ s2.Resource = s.Resource ∧
      s2.Type_ = s.Type_ ∧ s2.Start = s.Start ∧ s2.Meta = s.Meta ∧
      s2.Metrics = s.Metrics ∧ s2.SpanID = s.SpanID ∧ s2.TraceID = s.TraceID ∧
      s2.ParentID = s.ParentID ∧ s2.Error = s.Error ∧ s2.Context = s.Context ∧
      s2 = { s with Duration := s2.Duration } := by
  by_cases hdur : s.Duration = 0
  · exact ⟨{ s with Duration := subInt64 (match (finishConfig opts).FinishTime with
        | none => now
        | some ft => ft) s.Start }, by simp [span.Finish, he, span.finish, hc, hdur],
      rfl, rfl, rfl, rfl, rfl, rfl, rfl, rfl, rfl, rfl, rfl, rfl, rfl⟩
  · exact ⟨s, by simp [span.Finish, he, span.finish, hc, hdur],
      rfl, rfl, rfl, rfl, rfl, rfl, rfl, rfl, rfl, rfl, rfl, rfl, rfl⟩

/-- C10 at an unsampled span finished with `WithError(nil)`, as the mgo
wrappers do after a successful call. -/
theorem C10_witness :
    ∃ s2, (demoSpan false).Finish demoEnv "" 160 [WithError none] = some s2 ∧
      s2.Name = (demoSpan false).Name ∧ s2.Service = (demoSpan false).Service ∧
      s2.Resource = (demoSpan false).Resource ∧
      s2.Type_ = (demoSpan false).Type_ ∧ s2.Start = (demoSpan false).Start ∧
      s2.Meta = (demoSpan false).Meta ∧
      s2.Metrics = (demoSpan false).Metrics ∧ s2.SpanID = (demoSpan false).SpanID ∧
      s2.TraceID = (demoSpan false).TraceID ∧
      s2.ParentID = (demoSpan false).ParentID ∧ s2.Error = (demoSpan false).Error ∧
      s2.Context = (demoSpan false).Context ∧
      s2 = { demoSpan false with Duration := s2.Duration } :=
  C10_finish_frame demoEnv "" 160 (demoSpan false) (demoContext false) [WithError none]
    rfl rfl

end Tracer
